import Mathlib

/-!
Verification development for the JPO2025 / AirAPI repository
(air-quality station browser: `mainwindow.cpp` + `StationDialog.qml`).

The definitions below are a shallow embedding of the repository's code:
`MainWindow`'s network-reply handlers and state (mainwindow.cpp) and the
`StationDialog.qml` chart canvas / statistics bindings.  JavaScript numbers
are modelled by rationals plus explicit NaN/Infinity markers where the code
can produce them; QML/JSON `null` values are an explicit constructor.
-/

namespace AirApi

/-- A QML/JSON sample value as seen by the JavaScript chart code:
`null`, `NaN`, or an ordinary (finite) number, modelled as a rational. -/
inductive JSVal where
  | null
  | nan
  | num (v : ℚ)
deriving DecidableEq

/-- One time-series sample as stored in `m_sensorData`:
`{date: string, value: number|null}` (mainwindow.cpp, onSensorDataReply). -/
structure Sample where
  date : String
  value : JSVal
deriving DecidableEq

/-- Exact value of IEEE-754 `DBL_MAX` = `Number.MAX_VALUE`
= `std::numeric_limits<double>::max()` = (2 - 2^-52) * 2^1023. -/
def maxDouble : ℚ := 2 ^ 1024 - 2 ^ 971

/-- A JavaScript arithmetic result: NaN, ±Infinity, or a finite number. -/
inductive JSN where
  | nan
  | inf
  | ninf
  | num (v : ℚ)
deriving DecidableEq

/-- JavaScript division of two finite numbers: `0/0 = NaN`, `a/0 = ±Infinity`
for `a ≠ 0`, otherwise exact division. -/
def jsDiv (a b : ℚ) : JSN :=
  if b = 0 then (if a = 0 then JSN.nan else if 0 < a then JSN.inf else JSN.ninf)
  else JSN.num (a / b)

/-- JavaScript multiplication of a possibly non-finite number by a finite one. -/
def jsMulNum : JSN → ℚ → JSN
  | JSN.nan, _ => JSN.nan
  | JSN.num a, b => JSN.num (a * b)
  | JSN.inf, b => if 0 < b then JSN.inf else if b < 0 then JSN.ninf else JSN.nan
  | JSN.ninf, b => if 0 < b then JSN.ninf else if b < 0 then JSN.inf else JSN.nan

/-- JavaScript subtraction `a - x` of a possibly non-finite `x` from a finite `a`. -/
def jsSubL (a : ℚ) : JSN → JSN
  | JSN.nan => JSN.nan
  | JSN.inf => JSN.ninf
  | JSN.ninf => JSN.inf
  | JSN.num b => JSN.num (a - b)

/-- `d` decimal digits of `m` (base 10, most significant first, left-padded
with zeros to exactly `d` characters). -/
def natDigitsPadded : Nat → Nat → List Char
  | 0, _ => []
  | d + 1, m => natDigitsPadded d (m / 10) ++ [Char.ofNat (48 + m % 10)]

/-- Round a rational to the nearest integer (`⌊q + 1/2⌋`), computed on the
numerator/denominator so that the kernel can evaluate it. -/
def roundQ (q : ℚ) : ℤ :=
  (2 * q.num + (q.den : ℤ)) / (2 * (q.den : ℤ))

/-- Integer part (with sign) of JavaScript `q.toFixed(d)`. -/
def jsToFixedIntPart (q : ℚ) (d : Nat) : String :=
  let n : ℤ := roundQ (q * (10 : ℚ) ^ d)
  (if n < 0 then "-" else "") ++ Nat.repr (n.natAbs / 10 ^ d)

/-- Fractional digits of JavaScript `q.toFixed(d)`: exactly `d` characters. -/
def jsToFixedFracPart (q : ℚ) (d : Nat) : String :=
  String.mk (natDigitsPadded d ((roundQ (q * (10 : ℚ) ^ d)).natAbs % 10 ^ d))

/-- JavaScript `Number.prototype.toFixed(d)` on a finite value: round to `d`
decimal digits and render with exactly `d` digits after the point. -/
def jsToFixed (q : ℚ) (d : Nat) : String :=
  if d = 0 then jsToFixedIntPart q 0
  else jsToFixedIntPart q d ++ "." ++ jsToFixedFracPart q d

/-! ### Statistics bindings (StationDialog.qml, detailed-data panel)

Each QML `Text` binding over `mainWindow.sensorData[sensorId]` is embedded as
a function from the (optional) stored series to the displayed string. -/

/-- The values of the samples that pass the code's validity test
`value !== null && !isNaN(value)`. -/
def validValues (l : List Sample) : List ℚ :=
  l.filterMap (fun s => match s.value with | JSVal.num v => some v | _ => none)

/-- The fold performed by the "Minimalna wartość" binding:
`min = Number.MAX_VALUE; for (...) if (valid) min = Math.min(min, value)`. -/
def foldMinJS (l : List Sample) : ℚ :=
  l.foldl (fun m s => match s.value with | JSVal.num v => min m v | _ => m) maxDouble

/-- The fold performed by the "Maksymalna wartość" binding:
`max = -Number.MAX_VALUE; for (...) if (valid) max = Math.max(max, value)`. -/
def foldMaxJS (l : List Sample) : ℚ :=
  l.foldl (fun m s => match s.value with | JSVal.num v => max m v | _ => m) (-maxDouble)

/-- The sum/count fold performed by the "Średnia wartość" binding. -/
def foldSumCountJS (l : List Sample) : ℚ × Nat :=
  l.foldl (fun p s => match s.value with | JSVal.num v => (p.1 + v, p.2 + 1) | _ => p) (0, 0)

/-- `latestValueText` binding: `data[0]`, printed with `toFixed(2)` unless the
value is `null` (a `NaN` value would be printed as the string "NaN"). -/
def latestText (data : Option (List Sample)) : String :=
  match data with
  | none => "Brak danych"
  | some [] => "Brak danych"
  | some (d0 :: _) =>
      "Aktualny odczyt: " ++
        (match d0.value with
         | JSVal.null => "Brak"
         | JSVal.nan => "NaN"
         | JSVal.num v => jsToFixed v 2) ++
        " µg/m³ (" ++ d0.date ++ ")"

/-- "Minimalna wartość" binding. -/
def minText (data : Option (List Sample)) : String :=
  match data with
  | none => "Minimalna wartość: Brak danych"
  | some [] => "Minimalna wartość: Brak danych"
  | some l =>
      let m := foldMinJS l
      "Minimalna wartość: " ++ (if m ≠ maxDouble then jsToFixed m 2 else "Brak") ++ " µg/m³"

/-- "Maksymalna wartość" binding. -/
def maxText (data : Option (List Sample)) : String :=
  match data with
  | none => "Maksymalna wartość: Brak danych"
  | some [] => "Maksymalna wartość: Brak danych"
  | some l =>
      let m := foldMaxJS l
      "Maksymalna wartość: " ++ (if m ≠ -maxDouble then jsToFixed m 2 else "Brak") ++ " µg/m³"

/-- "Średnia wartość" binding. -/
def meanText (data : Option (List Sample)) : String :=
  match data with
  | none => "Średnia wartość: Brak danych"
  | some [] => "Średnia wartość: Brak danych"
  | some l =>
      let p := foldSumCountJS l
      "Średnia wartość: " ++
        (if 0 < p.2 then jsToFixed (p.1 / (p.2 : ℚ)) 2 else "Brak") ++ " µg/m³"

/-! ### Chart canvas (StationDialog.qml, chartCanvas.onPaint)

The paint handler iterates series with a JavaScript `for` loop index; the
index/element pairing is made explicit with `withIndexFrom`. -/

/-- Pair every element of a list with its index, starting at `i`
(the JavaScript loop counter). -/
def withIndexFrom (i : Nat) : List α → List (Nat × α)
  | [] => []
  | a :: l => (i, a) :: withIndexFrom (i + 1) l

/-- Horizontal position of sample index `i` of a series of `n` samples:
`(i / (n - 1)) * width`, exactly as the code computes it (no `n == 1`
guard: JavaScript `0/0` is NaN). -/
def xPos (i n : Nat) (w : ℚ) : JSN :=
  jsMulNum (jsDiv (i : ℚ) ((n : ℚ) - 1)) w

/-- Vertical position of value `v`:
`height - ((v - globalMin) / (globalMax - globalMin)) * height`. -/
def yPos (v gmin gmax h : ℚ) : JSN :=
  jsSubL h (jsMulNum (jsDiv (v - gmin) (gmax - gmin)) h)

/-- A 2D canvas path command issued while plotting a series. -/
inductive PathCmd where
  | moveTo (x y : JSN)
  | lineTo (x y : JSN)
deriving DecidableEq

/-- The canvas coordinates the paint loop computes for one indexed sample of a
series of `n` samples, or `none` when the sample is skipped
(`value === null || isNaN(value)`). -/
def samplePoint (n : Nat) (w h gmin gmax : ℚ) (p : Nat × Sample) : Option (JSN × JSN) :=
  match p.2.value with
  | JSVal.num v => some (xPos p.1 n w, yPos v gmin gmax h)
  | _ => none

/-- The per-series plotting loop: skip invalid samples; the first valid sample
is a `moveTo`, every later valid sample a `lineTo` (the `firstPoint` flag is
never reset, so the polyline continues across skipped samples). -/
def plotSeriesGo (n : Nat) (w h gmin gmax : ℚ) :
    List (Nat × Sample) → Bool → List PathCmd
  | [], _ => []
  | (i, s) :: rest, firstPoint =>
      match s.value with
      | JSVal.num v =>
          (if firstPoint then PathCmd.moveTo (xPos i n w) (yPos v gmin gmax h)
           else PathCmd.lineTo (xPos i n w) (yPos v gmin gmax h)) ::
            plotSeriesGo n w h gmin gmax rest false
      | _ => plotSeriesGo n w h gmin gmax rest firstPoint

/-- The path commands emitted for one series (StationDialog.qml, lines
253–275 of the dialog: the `for (var i = 0; i < data.length; i++)` loop). -/
def plotSeries (data : List Sample) (w h gmin gmax : ℚ) : List PathCmd :=
  plotSeriesGo data.length w h gmin gmax (withIndexFrom 0 data) true

/-- The valid plotted coordinates of a series, in sample order. -/
def seriesPoints (data : List Sample) (w h gmin gmax : ℚ) : List (JSN × JSN) :=
  (withIndexFrom 0 data).filterMap (samplePoint data.length w h gmin gmax)

/-- The canonical time axis: inside the range-scan loop over the selected
sensor ids, `timePoints.push(data[j].date)` runs only for loop index
`i === 0`, and a missing entry is skipped with `continue`. -/
def timePointsGo (store : Nat → Option (List Sample)) :
    Nat → List Nat → List String
  | _, [] => []
  | i, id :: rest =>
      match store id with
      | none => timePointsGo store (i + 1) rest
      | some data =>
          (if i = 0 then data.map (fun s => s.date) else []) ++
            timePointsGo store (i + 1) rest

/-- Time axis of the chart for an id list (in `Object.keys` order, see
`objectKeys`) and the current `sensorData` store. -/
def timePoints (ids : List Nat) (store : Nat → Option (List Sample)) : List String :=
  timePointsGo store 0 ids

/-- The id list the paint handler iterates: `Object.keys(selectedSensors)`.
The dialog stores the selection as integer-keyed properties of a JavaScript
object (`selectedSensors[modelData.sensorId] = ...` on check,
`delete selectedSensors[...]` on uncheck), and ECMAScript
`[[OwnPropertyKeys]]` enumerates integer-like keys in ascending numeric
order, regardless of insertion order.  `sel` is the selection in the order
the user made it; the enumeration is its ascending sort. -/
def objectKeys (sel : List Nat) : List Nat :=
  List.insertionSort (fun m n => m ≤ n) sel

/-- The plotting loop over selected series runs for
`s < selectedSensorIds.length && s < colors.length` with a 6-color palette,
skipping ids without data. -/
def chartSeriesPlots (ids : List Nat) (store : Nat → Option (List Sample))
    (w h gmin gmax : ℚ) : List (List PathCmd) :=
  (ids.take 6).filterMap (fun id =>
    (store id).map (fun d => plotSeries d w h gmin gmax))

/-- Value-axis tick labels: `for (var i = 0; i <= 5; i++)` produces label
`(globalMin + i * (globalMax - globalMin) / 5).toFixed(1)` at height
`height - i * height / 5`.  (The code's `isNaN` guard never fires in this
model, where sample values are finite rationals.) -/
def valueAxisLabels (gmin gmax h : ℚ) : List (String × ℚ) :=
  (List.range 6).map (fun i =>
    (jsToFixed (gmin + (i : ℚ) * (gmax - gmin) / 5) 1, h - (i : ℚ) * h / 5))

/-! ### MainWindow state and network-reply handlers (mainwindow.cpp)

`m_sensorData` is a `QVariantMap` keyed by `QString::number(sensorId)`;
since that keying is injective on ids, the store is embedded as a function
from the sensor id.  Network replies are either a transport error (with
`errorString`) or a parsed payload. -/

/-- A monitoring station (`Station` QObject). -/
structure Station where
  stationId : Nat
  stationName : String
  cityName : String
  address : String
  lat : ℚ
  lon : ℚ
  isSearched : Bool
deriving DecidableEq

/-- One entry of `m_sensors` (`{sensorId, paramName}`). -/
structure SensorInfo where
  sensorId : Nat
  paramName : String
deriving DecidableEq

/-- One parsed geocoding result (string-encoded `lat`/`lon`, already parsed). -/
structure GeoResult where
  lat : ℚ
  lon : ℚ
deriving DecidableEq

/-- A finished network reply: transport error or parsed payload. -/
inductive Reply (α : Type) where
  | networkError (msg : String)
  | ok (payload : α)

/-- The mutable state of `MainWindow`. -/
structure AppState where
  status : String
  mapCenter : ℚ × ℚ
  allStations : List Station
  stations : List Station
  sensors : List SensorInfo
  sensorData : Nat → Option (List Sample)

/-- Split a character list into maximal whitespace-free words
(`acc` holds the current word, reversed). -/
def wordsAux : List Char → List Char → List (List Char)
  | [], [] => []
  | [], acc => [acc.reverse]
  | c :: cs, acc =>
      if c.isWhitespace then
        match acc with
        | [] => wordsAux cs []
        | _ => acc.reverse :: wordsAux cs []
      else wordsAux cs (c :: acc)

/-- City normalization used by the exact-match loop:
`toLower().simplified()` — lower-case every character, trim, and collapse
whitespace runs to single spaces. -/
def normalizeCity (s : String) : String :=
  String.mk (List.intercalate [' '] (wordsAux (s.data.map Char.toLower) []))

/-- `MainWindow::updateStationSearchStatus`: set `isSearched` on every catalog
station with the given id. -/
def updateStationSearchStatus (stationId : Nat) (b : Bool)
    (l : List Station) : List Station :=
  l.map (fun s => if s.stationId = stationId then { s with isSearched := b } else s)

/-- The exact city-match loop of `onGeocodeReply`: walk the catalog; for every
station whose normalized city equals the query, append a searched copy to
`m_stations` and flag the catalog entry by id. -/
def applyMatches (norm : String) (catalog : List Station)
    (acc : List Station × List Station) : List Station × List Station :=
  catalog.foldl
    (fun acc s =>
      if normalizeCity s.cityName = norm then
        (acc.1 ++ [{ s with isSearched := true }],
         updateStationSearchStatus s.stationId true acc.2)
      else acc)
    acc

/-- The nearest-station loop of `onGeocodeReply`:
`minDistance = std::numeric_limits<double>::max()`, take a station only when
strictly closer (first-encountered wins ties).  The metric `dist` is the
great-circle `QGeoCoordinate::distanceTo`, kept abstract: the loop's
behaviour does not depend on the metric. -/
def findClosest (dist : ℚ × ℚ → ℚ × ℚ → ℚ) (coord : ℚ × ℚ)
    (l : List Station) : Option Station × ℚ :=
  l.foldl
    (fun acc s =>
      let d := dist coord (s.lat, s.lon)
      if d < acc.2 then (some s, d) else acc)
    (none, maxDouble)

/-- `MainWindow::onGeocodeReply`. -/
def onGeocodeReply (dist : ℚ × ℚ → ℚ × ℚ → ℚ) (reply : Reply (List GeoResult))
    (searchedCity : String) (st : AppState) : AppState :=
  match reply with
  | Reply.networkError e => { st with status := "Błąd wyszukiwania: " ++ e }
  | Reply.ok [] => { st with status := "Nie znaleziono miasta." }
  | Reply.ok (r :: _) =>
      let cleared := st.allStations.map (fun s => { s with isSearched := false })
      let norm := normalizeCity searchedCity
      let p := applyMatches norm cleared ([], cleared)
      if p.1 = [] then
        match findClosest dist (r.lat, r.lon) p.2 with
        | (some c, _) =>
            { st with
              mapCenter := (c.lat, c.lon),
              stations := [{ c with isSearched := true }],
              allStations := updateStationSearchStatus c.stationId true p.2,
              status := "Nie znaleziono stacji w " ++ searchedCity ++
                ". Najbliższa stacja znajduje się w " ++ c.cityName ++ "." }
        | (none, _) =>
            { st with
              mapCenter := (r.lat, r.lon),
              stations := [],
              allStations := p.2,
              status := "Nie znaleziono stacji w " ++ searchedCity ++ "." }
      else
        { st with
          mapCenter := (r.lat, r.lon),
          stations := p.1,
          allStations := p.2,
          status := "Znaleziono " ++ Nat.repr p.1.length ++ " stacji w " ++
            searchedCity ++ "." }

/-- `MainWindow::onStationsReply`: on error set the status only; on success
replace the whole catalog (stations are created with `isSearched = false`). -/
def onStationsReply (reply : Reply (List Station)) (st : AppState) : AppState :=
  match reply with
  | Reply.networkError e => { st with status := "Błąd pobierania stacji: " ++ e }
  | Reply.ok stations =>
      { st with allStations := stations.map (fun s => { s with isSearched := false }) }

/-- `MainWindow::onSensorsReply`: on error the code clears `m_sensors` and
returns, without touching `m_status`; on success it replaces `m_sensors`. -/
def onSensorsReply (reply : Reply (List SensorInfo)) (st : AppState) : AppState :=
  match reply with
  | Reply.networkError _ => { st with sensors := [] }
  | Reply.ok sensors => { st with sensors := sensors }

/-- `MainWindow::onSensorDataReply`: on error remove the entry for this
sensor id; on success store the parsed sample list under this id. -/
def onSensorDataReply (reply : Reply (List Sample)) (sensorId : Nat)
    (st : AppState) : AppState :=
  match reply with
  | Reply.networkError _ =>
      { st with sensorData := fun j => if j = sensorId then none else st.sensorData j }
  | Reply.ok values =>
      { st with sensorData := fun j => if j = sensorId then some values else st.sensorData j }

/-- `MainWindow::removeSensorData`. -/
def removeSensorData (sensorId : Nat) (st : AppState) : AppState :=
  { st with sensorData := fun j => if j = sensorId then none else st.sensorData j }

/-- `QVariant::toDouble` applied to a stored sample value while saving:
`null` (invalid variant) converts to `0.0`. -/
def jsToDouble : JSVal → ℚ
  | JSVal.num v => v
  | _ => 0

/-- One element of the saved `sensors` JSON array. -/
structure SavedSensor where
  sensorId : Nat
  paramName : String
  measurements : List (String × ℚ)
deriving DecidableEq

/-- The JSON snapshot written by `MainWindow::saveStationData`. -/
structure SavedSnapshot where
  stationId : Nat
  stationName : String
  cityName : String
  address : String
  latitude : ℚ
  longitude : ℚ
  saveDate : String
  sensors : List SavedSensor
deriving DecidableEq

/-- `MainWindow::saveStationData`.  `saveDate`/`timestamp` stand for the two
`QDateTime::currentDateTime()` strings, `fileOk` for `QFile::open` succeeding.
Returns the new state together with the written file (name and content), or
`none` when nothing was written. -/
def saveStationData (stationId : Nat) (cityName address : String)
    (saveDate timestamp : String) (fileOk : Bool) (st : AppState) :
    AppState × Option (String × SavedSnapshot) :=
  match st.allStations.find? (fun s => s.stationId = stationId) with
  | none =>
      ({ st with status := "Błąd: Stacja o ID " ++ Nat.repr stationId ++
          " nie znaleziona." }, none)
  | some station =>
      let snap : SavedSnapshot :=
        { stationId := stationId
          stationName := station.stationName
          cityName := cityName
          address := address
          latitude := station.lat
          longitude := station.lon
          saveDate := saveDate
          sensors := st.sensors.map (fun si =>
            { sensorId := si.sensorId
              paramName := si.paramName
              measurements := ((st.sensorData si.sensorId).getD []).map
                (fun p => (p.date, jsToDouble p.value)) }) }
      let filename := "station_" ++ Nat.repr stationId ++ "_" ++ timestamp ++ ".json"
      if fileOk then
        ({ st with status := "Dane zapisano do pliku: " ++ filename },
         some (filename, snap))
      else
        ({ st with status := "Błąd: Nie można otworzyć pliku do zapisu: " ++ filename },
         none)

/-! ### Helper lemmas -/

/-- `roundQ` of an integer is that integer. -/
lemma roundQ_intCast (n : ℤ) : roundQ ((n : ℚ)) = n := by
  unfold roundQ
  rw [Rat.num_intCast, Rat.den_intCast]
  push_cast
  omega

lemma plotSeriesGo_false (n : Nat) (w h gmin gmax : ℚ) (l : List (Nat × Sample)) :
    plotSeriesGo n w h gmin gmax l false =
      (l.filterMap (samplePoint n w h gmin gmax)).map
        (fun q => PathCmd.lineTo q.1 q.2) := by
  induction l with
  | nil => rfl
  | cons p rest ih =>
      obtain ⟨i, s⟩ := p
      cases hv : s.value <;> simp [plotSeriesGo, samplePoint, hv, ih]

lemma plotSeriesGo_true (n : Nat) (w h gmin gmax : ℚ) (l : List (Nat × Sample)) :
    plotSeriesGo n w h gmin gmax l true =
      (match l.filterMap (samplePoint n w h gmin gmax) with
       | [] => []
       | q :: qs =>
           PathCmd.moveTo q.1 q.2 :: qs.map (fun q => PathCmd.lineTo q.1 q.2)) := by
  induction l with
  | nil => rfl
  | cons p rest ih =>
      obtain ⟨i, s⟩ := p
      cases hv : s.value
      case num v => simp [plotSeriesGo, samplePoint, hv, plotSeriesGo_false]
      all_goals simp [plotSeriesGo, samplePoint, hv, ih]

lemma timePointsGo_ne_zero (store : Nat → Option (List Sample)) (l : List Nat)
    (i : Nat) (h : i ≠ 0) : timePointsGo store i l = [] := by
  induction l generalizing i with
  | nil => rfl
  | cons id rest ih =>
      cases hs : store id <;>
        simp [timePointsGo, hs, ih (i + 1) (by omega), h]

lemma withIndexFrom_mem_of_get {l : List α} {i : Nat} {a : α} (j : Nat)
    (h : l.get? i = some a) : (j + i, a) ∈ withIndexFrom j l := by
  induction l generalizing i j with
  | nil => simp at h
  | cons b rest ih =>
      cases i with
      | zero =>
          simp only [List.get?] at h
          injection h with h
          simp [withIndexFrom, h]
      | succ k =>
          have hk : rest.get? k = some a := h
          have := ih (j + 1) hk
          have hidx : j + (k + 1) = (j + 1) + k := by omega
          rw [hidx]
          exact List.mem_cons_of_mem _ this

lemma foldl_min_le_init (l : List ℚ) (init : ℚ) : l.foldl min init ≤ init := by
  induction l generalizing init with
  | nil => simp
  | cons a rest ih => exact le_trans (ih (min init a)) (min_le_left _ _)

lemma foldl_min_le_mem (l : List ℚ) (init : ℚ) : ∀ v ∈ l, l.foldl min init ≤ v := by
  induction l generalizing init with
  | nil => simp
  | cons a rest ih =>
      intro v hv
      rcases List.mem_cons.mp hv with h | h
      · subst h
        exact le_trans (foldl_min_le_init rest (min init v)) (min_le_right _ _)
      · exact ih (min init a) v h

lemma foldl_min_eq_init_or_mem (l : List ℚ) (init : ℚ) :
    l.foldl min init = init ∨ l.foldl min init ∈ l := by
  induction l generalizing init with
  | nil => left; rfl
  | cons a rest ih =>
      rcases ih (min init a) with h | h
      · rcases le_total init a with hle | hle
        · left
          rw [List.foldl_cons, h, min_eq_left hle]
        · right
          rw [List.foldl_cons, h, min_eq_right hle]
          exact List.mem_cons_self a rest
      · right
        exact List.mem_cons_of_mem _ h

lemma foldl_max_ge_init (l : List ℚ) (init : ℚ) : init ≤ l.foldl max init := by
  induction l generalizing init with
  | nil => simp
  | cons a rest ih => exact le_trans (le_max_left _ _) (ih (max init a))

lemma foldl_max_ge_mem (l : List ℚ) (init : ℚ) : ∀ v ∈ l, v ≤ l.foldl max init := by
  induction l generalizing init with
  | nil => simp
  | cons a rest ih =>
      intro v hv
      rcases List.mem_cons.mp hv with h | h
      · subst h
        exact le_trans (le_max_right _ _) (foldl_max_ge_init rest (max init v))
      · exact ih (max init a) v h

lemma foldl_max_eq_init_or_mem (l : List ℚ) (init : ℚ) :
    l.foldl max init = init ∨ l.foldl max init ∈ l := by
  induction l generalizing init with
  | nil => left; rfl
  | cons a rest ih =>
      rcases ih (max init a) with h | h
      · rcases le_total a init with hle | hle
        · left
          rw [List.foldl_cons, h, max_eq_left hle]
        · right
          rw [List.foldl_cons, h, max_eq_right hle]
          exact List.mem_cons_self a rest
      · right
        exact List.mem_cons_of_mem _ h

lemma foldMinJS_eq_validValues (l : List Sample) :
    ∀ init : ℚ,
      l.foldl (fun m s => match s.value with | JSVal.num v => min m v | _ => m) init =
        (validValues l).foldl min init := by
  induction l with
  | nil => intro init; rfl
  | cons s rest ih =>
      intro init
      cases hv : s.value <;> simp [validValues, hv, ih, List.filterMap_cons]

lemma foldMaxJS_eq_validValues (l : List Sample) :
    ∀ init : ℚ,
      l.foldl (fun m s => match s.value with | JSVal.num v => max m v | _ => m) init =
        (validValues l).foldl max init := by
  induction l with
  | nil => intro init; rfl
  | cons s rest ih =>
      intro init
      cases hv : s.value <;> simp [validValues, hv, ih, List.filterMap_cons]

lemma foldSumCount_go (l : List Sample) :
    ∀ (a : ℚ) (k : Nat),
      l.foldl (fun p s => match s.value with
        | JSVal.num v => (p.1 + v, p.2 + 1) | _ => p) (a, k) =
        (a + (validValues l).sum, k + (validValues l).length) := by
  induction l with
  | nil => intro a k; simp [validValues]
  | cons s rest ih =>
      intro a k
      cases hv : s.value <;>
        simp [validValues, hv, ih, List.filterMap_cons, Prod.ext_iff]
      constructor
      · ring
      · omega

lemma findClosest_go (dist : ℚ × ℚ → ℚ × ℚ → ℚ) (coord : ℚ × ℚ)
    (l : List Station) :
    ∀ acc : Option Station × ℚ,
      (l.foldl (fun acc s =>
          let d := dist coord (s.lat, s.lon)
          if d < acc.2 then (some s, d) else acc) acc).2 ≤ acc.2 ∧
      (∀ s ∈ l,
        (l.foldl (fun acc s =>
          let d := dist coord (s.lat, s.lon)
          if d < acc.2 then (some s, d) else acc) acc).2 ≤ dist coord (s.lat, s.lon)) ∧
      ((l.foldl (fun acc s =>
          let d := dist coord (s.lat, s.lon)
          if d < acc.2 then (some s, d) else acc) acc) = acc ∨
        ∃ c ∈ l,
          (l.foldl (fun acc s =>
            let d := dist coord (s.lat, s.lon)
            if d < acc.2 then (some s, d) else acc) acc).1 = some c ∧
          (l.foldl (fun acc s =>
            let d := dist coord (s.lat, s.lon)
            if d < acc.2 then (some s, d) else acc) acc).2 =
            dist coord (c.lat, c.lon)) := by
  induction l with
  | nil => intro acc; exact ⟨le_refl _, by simp, Or.inl rfl⟩
  | cons a rest ih =>
      intro acc
      by_cases hd : dist coord (a.lat, a.lon) < acc.2
      · obtain ⟨h1, h2, h3⟩ := ih (some a, dist coord (a.lat, a.lon))
        refine ⟨?_, ?_, ?_⟩
        · simp only [List.foldl_cons, if_pos hd]
          exact le_trans h1 (le_of_lt hd)
        · intro s hs
          rcases List.mem_cons.mp hs with h | h
          · subst h
            simpa only [List.foldl_cons, if_pos hd] using h1
          · simpa only [List.foldl_cons, if_pos hd] using h2 s h
        · rcases h3 with h | ⟨c, hc, hc1, hc2⟩
          · right
            refine ⟨a, List.mem_cons_self a rest, ?_, ?_⟩ <;>
              simp only [List.foldl_cons, if_pos hd, h]
          · right
            refine ⟨c, List.mem_cons_of_mem _ hc, ?_, ?_⟩ <;>
              simp only [List.foldl_cons, if_pos hd, hc1, hc2]
      · obtain ⟨h1, h2, h3⟩ := ih acc
        refine ⟨?_, ?_, ?_⟩
        · simpa only [List.foldl_cons, if_neg hd] using h1
        · intro s hs
          rcases List.mem_cons.mp hs with h | h
          · subst h
            simp only [List.foldl_cons, if_neg hd]
            exact le_trans h1 (le_of_not_lt hd)
          · simpa only [List.foldl_cons, if_neg hd] using h2 s h
        · rcases h3 with h | ⟨c, hc, hc1, hc2⟩
          · left
            simpa only [List.foldl_cons, if_neg hd] using h
          · right
            refine ⟨c, List.mem_cons_of_mem _ hc, ?_, ?_⟩ <;>
              simp only [List.foldl_cons, if_neg hd, hc1, hc2]

lemma applyMatches_no_match (norm : String) (catalog : List Station)
    (h : ∀ s ∈ catalog, normalizeCity s.cityName ≠ norm) :
    ∀ acc, applyMatches norm catalog acc = acc := by
  induction catalog with
  | nil => intro acc; rfl
  | cons a rest ih =>
      intro acc
      have ha : normalizeCity a.cityName ≠ norm := h a (List.mem_cons_self a rest)
      have hr : ∀ s ∈ rest, normalizeCity s.cityName ≠ norm :=
        fun s hs => h s (List.mem_cons_of_mem _ hs)
      simp only [applyMatches, List.foldl_cons, if_neg ha]
      exact ih hr acc

/-- `jsToFixed` reduced to an integer rendering, given the exact scaled value. -/
lemma jsToFixed_scaled (q : ℚ) (d : Nat) (n : ℤ) (hd : d ≠ 0)
    (h : q * (10 : ℚ) ^ d = (n : ℚ)) :
    jsToFixed q d =
      (if n < 0 then "-" else "") ++ Nat.repr (n.natAbs / 10 ^ d) ++ "." ++
        String.mk (natDigitsPadded d (n.natAbs % 10 ^ d)) := by
  unfold jsToFixed jsToFixedIntPart jsToFixedFracPart
  rw [if_neg hd, h, roundQ_intCast]

/-! ### Concrete data used by witnesses and counterexamples -/

/-- A concrete application state used to instantiate theorems. -/
def demoState : AppState :=
  { status := "Wprowadź nazwę miasta i kliknij Szukaj"
    mapCenter := (52, 21)
    allStations :=
      [{ stationId := 1, stationName := "MzWarszawa", cityName := "Warszawa",
         address := "Marszałkowska", lat := 52.23, lon := 21.01, isSearched := false },
       { stationId := 2, stationName := "MpKrakow", cityName := "Krakow",
         address := "Rynek", lat := 50.06, lon := 19.94, isSearched := false }]
    stations := []
    sensors := [{ sensorId := 1, paramName := "PM10" }]
    sensorData := fun _ => none }

/-- A concrete sample list used to instantiate theorems. -/
def demoValues : List Sample :=
  [{ date := "2025-01-01 00:00:00", value := JSVal.num 5 }]

/-! ### Claims -/

/-- C2 counterexample: a sensor-list load failure does NOT set a status string
and does NOT leave prior state untouched — `onSensorsReply`'s error branch
clears `m_sensors` and leaves `m_status` as it was, so the claim is false at
this concrete state. -/
theorem c2_counterexample :
    (onSensorsReply (Reply.networkError "timeout") demoState).sensors = [] ∧
    demoState.sensors ≠ [] ∧
    (onSensorsReply (Reply.networkError "timeout") demoState).status =
      demoState.status := by
  refine ⟨rfl, ?_, rfl⟩
  simp [demoState]

/-- C2 (amended): geocoding and station-list load failures set a user-visible
status string and leave all other state untouched; a sensor-list load failure
clears the sensor list, sets no status, and changes nothing else; a
sensor-data fetch failure removes the SeriesStore entry for that id, sets no
status, and changes nothing else. -/
theorem c2_amended_failure_policy (dist : ℚ × ℚ → ℚ × ℚ → ℚ)
    (msg city : String) (id : Nat) (st : AppState) :
    onGeocodeReply dist (Reply.networkError msg) city st =
      { st with status := "Błąd wyszukiwania: " ++ msg } ∧
    onStationsReply (Reply.networkError msg) st =
      { st with status := "Błąd pobierania stacji: " ++ msg } ∧
    onSensorsReply (Reply.networkError msg) st = { st with sensors := [] } ∧
    onSensorDataReply (Reply.networkError msg) id st =
      { st with sensorData := fun j => if j = id then none else st.sensorData j } :=
  ⟨rfl, rfl, rfl, rfl⟩

/-- C4: completing a sensor-data fetch with a successful response replaces the
entry for that id with the delivered sample sequence; completing it with a
failure removes the entry; in both cases every other id's entry (and all other
state) is unchanged, so no stale entry for the fetched id remains. -/
theorem c4_fetch_replaces_or_removes (st : AppState) (id : Nat)
    (values : List Sample) (e : String) :
    onSensorDataReply (Reply.ok values) id st =
      { st with sensorData := fun j => if j = id then some values else st.sensorData j } ∧
    onSensorDataReply (Reply.networkError e) id st =
      { st with sensorData := fun j => if j = id then none else st.sensorData j } ∧
    (onSensorDataReply (Reply.ok values) id st).sensorData id = some values ∧
    (onSensorDataReply (Reply.networkError e) id st).sensorData id = none ∧
    (∀ j, j ≠ id →
      (onSensorDataReply (Reply.ok values) id st).sensorData j = st.sensorData j ∧
      (onSensorDataReply (Reply.networkError e) id st).sensorData j = st.sensorData j) := by
  refine ⟨rfl, rfl, by simp [onSensorDataReply], by simp [onSensorDataReply], ?_⟩
  intro j hj
  constructor <;> simp [onSensorDataReply, hj]

/-- C4 witness: at a concrete state, a successful fetch for id 7 stores the
delivered list, a failed fetch removes it, and id 3 is untouched. -/
theorem c4_fetch_replaces_or_removes_witness :
    (3 : Nat) ≠ 7 ∧
    (onSensorDataReply (Reply.ok demoValues) 7 demoState).sensorData 3 =
      demoState.sensorData 3 ∧
    (onSensorDataReply (Reply.networkError "err") 7 demoState).sensorData 3 =
      demoState.sensorData 3 :=
  ⟨by decide,
   ((c4_fetch_replaces_or_removes demoState 7 demoValues "err").2.2.2.2 3 (by decide)).1,
   ((c4_fetch_replaces_or_removes demoState 7 demoValues "err").2.2.2.2 3 (by decide)).2⟩

/-- C9: invoking save-station-data for a station id not in the catalog writes
no file and changes nothing except the status message, which reports the
missing station. -/
theorem c9_save_missing_station (id : Nat)
    (cityName address saveDate timestamp : String) (fileOk : Bool)
    (st : AppState) (h : ∀ s ∈ st.allStations, s.stationId ≠ id) :
    (saveStationData id cityName address saveDate timestamp fileOk st).2 = none ∧
    (saveStationData id cityName address saveDate timestamp fileOk st).1 =
      { st with status := "Błąd: Stacja o ID " ++ Nat.repr id ++ " nie znaleziona." } := by
  have hf : st.allStations.find? (fun s => s.stationId = id) = none := by
    rw [List.find?_eq_none]
    intro s hs
    simpa using h s hs
  constructor <;> simp [saveStationData, hf]

/-- C9 witness: saving station id 7 against the concrete two-station catalog
writes no file and only updates the status. -/
theorem c9_save_missing_station_witness :
    (∀ s ∈ demoState.allStations, s.stationId ≠ 7) ∧
    (saveStationData 7 "Lodz" "ul. X" "2025-05-01" "20250501_120000" true demoState).2 =
      none ∧
    (saveStationData 7 "Lodz" "ul. X" "2025-05-01" "20250501_120000" true demoState).1 =
      { demoState with
          status := "Błąd: Stacja o ID " ++ Nat.repr 7 ++ " nie znaleziona." } :=
  ⟨by decide,
   (c9_save_missing_station 7 "Lodz" "ul. X" "2025-05-01" "20250501_120000" true
     demoState (by decide)).1,
   (c9_save_missing_station 7 "Lodz" "ul. X" "2025-05-01" "20250501_120000" true
     demoState (by decide)).2⟩

/-- C10: a successful geocoding reply with an empty result array only sets the
status message; the map center, the searched-station list, the catalog and
every station's `isSearched` flag are all left unchanged (search flags are
cleared only on a non-empty result). -/
theorem c10_geocode_empty_result (dist : ℚ × ℚ → ℚ × ℚ → ℚ) (city : String)
    (st : AppState) :
    onGeocodeReply dist (Reply.ok []) city st =
      { st with status := "Nie znaleziono miasta." } ∧
    (onGeocodeReply dist (Reply.ok []) city st).mapCenter = st.mapCenter ∧
    (onGeocodeReply dist (Reply.ok []) city st).stations = st.stations ∧
    (onGeocodeReply dist (Reply.ok []) city st).allStations = st.allStations ∧
    (onGeocodeReply dist (Reply.ok []) city st).sensorData = st.sensorData :=
  ⟨rfl, rfl, rfl, rfl, rfl⟩

/-- A series with a valid sample, a gap (`null`), and another valid sample. -/
def gapSeries : List Sample :=
  [{ date := "2025-01-01 10:00:00", value := JSVal.num 5 },
   { date := "2025-01-01 11:00:00", value := JSVal.null },
   { date := "2025-01-01 12:00:00", value := JSVal.num 7 }]

/-- C1 counterexample: for the series `[5, null, 7]` the rendered path is
`moveTo` (index 0) followed directly by `lineTo` (index 2): the segment ending
at the last valid sample before the gap IS connected to the next valid sample
after it — there is no break at the invalid index, contradicting the claim. -/
theorem c1_counterexample :
    plotSeries gapSeries 100 100 0 10 =
      [PathCmd.moveTo (JSN.num 0) (JSN.num 50),
       PathCmd.lineTo (JSN.num 100) (JSN.num 30)] := by
  norm_num [plotSeries, gapSeries, withIndexFrom, plotSeriesGo, xPos, yPos,
    jsDiv, jsMulNum, jsSubL]

/-- C1 (amended): samples with missing/invalid value are skipped, but the
polyline has NO break at such an index: the first valid sample of the series
is a `moveTo` and every later valid sample — including the first one after a
gap — is a `lineTo`, so the line connects the last valid sample before a gap
straight to the next valid sample after it. -/
theorem c1_amended_gap_connected (data : List Sample) (w h gmin gmax : ℚ) :
    plotSeries data w h gmin gmax =
      (match seriesPoints data w h gmin gmax with
       | [] => []
       | q :: qs =>
           PathCmd.moveTo q.1 q.2 :: qs.map (fun q => PathCmd.lineTo q.1 q.2)) := by
  unfold plotSeries seriesPoints
  exact plotSeriesGo_true _ _ _ _ _ _

lemma natDigitsPadded_length (d m : Nat) : (natDigitsPadded d m).length = d := by
  induction d generalizing m with
  | zero => rfl
  | succ k ih => simp [natDigitsPadded, ih]

/-- C7 counterexample: with `globalMin = 0`, `globalMax = 5` (a non-degenerate
range) the six tick labels are "0.0" … "5.0" — formatted by `toFixed(1)` to
ONE decimal place, while 2-decimal formatting of the first tick would be
"0.00"; the claim's "2 decimal places" is false at this input. -/
theorem c7_counterexample :
    (valueAxisLabels 0 5 100).map Prod.fst =
      ["0.0", "1.0", "2.0", "3.0", "4.0", "5.0"] ∧
    jsToFixed 0 2 = "0.00" ∧ ("0.0" : String) ≠ "0.00" := by
  refine ⟨?_, ?_, by decide⟩
  · simp only [valueAxisLabels, List.range_succ, List.range_zero, List.nil_append,
      List.cons_append, List.map_cons, List.map_nil]
    norm_num
    refine ⟨?_, ?_, ?_, ?_, ?_, ?_⟩
    · rw [jsToFixed_scaled _ _ 0 (by norm_num) (by norm_num)]; decide
    · rw [jsToFixed_scaled _ _ 10 (by norm_num) (by norm_num)]; decide
    · rw [jsToFixed_scaled _ _ 20 (by norm_num) (by norm_num)]; decide
    · rw [jsToFixed_scaled _ _ 30 (by norm_num) (by norm_num)]; decide
    · rw [jsToFixed_scaled _ _ 40 (by norm_num) (by norm_num)]; decide
    · rw [jsToFixed_scaled _ _ 50 (by norm_num) (by norm_num)]; decide
  · rw [jsToFixed_scaled _ _ 0 (by norm_num) (by norm_num)]; decide

/-- C7 (amended): the value axis carries exactly 6 evenly spaced tick labels
from `globalMin` to `globalMax` inclusive, each formatted to ONE decimal place
(`toFixed(1)`): every label is an integer part, a point, and exactly one
fractional digit. -/
theorem c7_amended_six_ticks_one_decimal (gmin gmax h : ℚ) :
    (valueAxisLabels gmin gmax h).length = 6 ∧
    (valueAxisLabels gmin gmax h).map Prod.fst =
      [jsToFixed gmin 1,
       jsToFixed (gmin + (gmax - gmin) / 5) 1,
       jsToFixed (gmin + 2 * (gmax - gmin) / 5) 1,
       jsToFixed (gmin + 3 * (gmax - gmin) / 5) 1,
       jsToFixed (gmin + 4 * (gmax - gmin) / 5) 1,
       jsToFixed gmax 1] ∧
    (∀ q : ℚ,
      jsToFixed q 1 = jsToFixedIntPart q 1 ++ "." ++ jsToFixedFracPart q 1 ∧
      (jsToFixedFracPart q 1).length = 1) := by
  refine ⟨rfl, ?_, ?_⟩
  · simp only [valueAxisLabels, List.range_succ, List.range_zero, List.nil_append,
      List.cons_append, List.map_cons, List.map_nil]
    norm_num
  · intro q
    constructor
    · simp [jsToFixed]
    · unfold jsToFixedFracPart
      rw [show ∀ l : List Char, (String.mk l).length = l.length from fun _ => rfl]
      rw [natDigitsPadded_length]

/-- C8 counterexample: for a single-sample series (`n == 1`) the horizontal
position is `(0 / (1 - 1)) * width`, JavaScript `0/0 = NaN` — the code has no
`n == 1` guard and the position is NaN, not 0 as claimed. -/
theorem c8_counterexample :
    xPos 0 1 100 = JSN.nan ∧ JSN.nan ≠ JSN.num 0 := by
  constructor
  · norm_num [xPos, jsDiv, jsMulNum]
  · decide

/-- C8 (amended): for `n ≥ 2` samples the horizontal position of index `i` is
`(i / (n - 1)) · width`; for `n == 1` the division is `0/0` and the position
is NaN (the division-by-zero case is NOT guarded); the vertical position of a
valid value `v` is `(1 - (v - globalMin) / (globalMax - globalMin)) · height`. -/
theorem c8_amended_positions (i n : Nat) (w h gmin gmax v : ℚ)
    (hn : 2 ≤ n) (hr : gmin ≠ gmax) :
    xPos i n w = JSN.num ((i : ℚ) / ((n : ℚ) - 1) * w) ∧
    xPos 0 1 w = JSN.nan ∧
    yPos v gmin gmax h = JSN.num ((1 - (v - gmin) / (gmax - gmin)) * h) := by
  have h2 : (2 : ℚ) ≤ (n : ℚ) := by exact_mod_cast hn
  have hden : ((n : ℚ) - 1) ≠ 0 := by intro h0; linarith
  have hgg : gmax - gmin ≠ 0 := sub_ne_zero.mpr (Ne.symm hr)
  refine ⟨?_, ?_, ?_⟩
  · simp [xPos, jsDiv, jsMulNum, hden]
  · norm_num [xPos, jsDiv, jsMulNum]
  · simp [yPos, jsDiv, jsMulNum, jsSubL, hgg]
    ring

/-- C8 witness: the amended statement instantiated at `i = 1`, `n = 3`,
`width = height = 100`, range 0…10, value 5. -/
theorem c8_amended_positions_witness :
    2 ≤ 3 ∧ (0 : ℚ) ≠ 10 ∧
    (xPos 1 3 100 = JSN.num (((1 : Nat) : ℚ) / (((3 : Nat) : ℚ) - 1) * 100) ∧
     xPos 0 1 100 = JSN.nan ∧
     yPos 5 0 10 100 = JSN.num ((1 - ((5 : ℚ) - 0) / (10 - 0)) * 100)) :=
  ⟨by decide, by norm_num, c8_amended_positions 1 3 100 100 0 10 5 (by decide) (by norm_num)⟩

lemma maxDouble_big : (2 ^ 60 : ℚ) < maxDouble := by
  unfold maxDouble
  have ha : (2 : ℚ) ^ 60 < 2 ^ 971 := by
    apply pow_lt_pow_right₀ (by norm_num) (by norm_num)
  have hb : (2 : ℚ) ^ 972 ≤ 2 ^ 1024 := by
    apply pow_le_pow_right₀ (by norm_num) (by norm_num)
  have hc : (2 : ℚ) ^ 971 + 2 ^ 971 = 2 ^ 972 := by ring
  linarith

lemma minText_cons (d0 : Sample) (rest : List Sample) :
    minText (some (d0 :: rest)) =
      "Minimalna wartość: " ++
        (if foldMinJS (d0 :: rest) ≠ maxDouble
         then jsToFixed (foldMinJS (d0 :: rest)) 2 else "Brak") ++ " µg/m³" := rfl

lemma maxText_cons (d0 : Sample) (rest : List Sample) :
    maxText (some (d0 :: rest)) =
      "Maksymalna wartość: " ++
        (if foldMaxJS (d0 :: rest) ≠ -maxDouble
         then jsToFixed (foldMaxJS (d0 :: rest)) 2 else "Brak") ++ " µg/m³" := rfl

lemma meanText_cons (d0 : Sample) (rest : List Sample) :
    meanText (some (d0 :: rest)) =
      "Średnia wartość: " ++
        (if 0 < (foldSumCountJS (d0 :: rest)).2
         then jsToFixed ((foldSumCountJS (d0 :: rest)).1 /
            (((foldSumCountJS (d0 :: rest)).2 : Nat) : ℚ)) 2
         else "Brak") ++ " µg/m³" := rfl

lemma latestText_cons_null (d0 : Sample) (rest : List Sample)
    (h : d0.value = JSVal.null) :
    latestText (some (d0 :: rest)) =
      "Aktualny odczyt: Brak µg/m³ (" ++ d0.date ++ ")" := by
  obtain ⟨dd, dv⟩ := d0
  simp only at h
  subst h
  rfl

lemma latestText_cons_num (d0 : Sample) (rest : List Sample) (v : ℚ)
    (h : d0.value = JSVal.num v) :
    latestText (some (d0 :: rest)) =
      "Aktualny odczyt: " ++ jsToFixed v 2 ++ " µg/m³ (" ++ d0.date ++ ")" := by
  obtain ⟨dd, dv⟩ := d0
  simp only at h
  subst h
  rfl

lemma foldMinJS_valid (l : List Sample) :
    foldMinJS l = (validValues l).foldl min maxDouble := by
  unfold foldMinJS
  exact foldMinJS_eq_validValues l maxDouble

lemma foldMaxJS_valid (l : List Sample) :
    foldMaxJS l = (validValues l).foldl max (-maxDouble) := by
  unfold foldMaxJS
  exact foldMaxJS_eq_validValues l (-maxDouble)

lemma foldSumCountJS_valid (l : List Sample) :
    foldSumCountJS l = ((validValues l).sum, (validValues l).length) := by
  unfold foldSumCountJS
  rw [foldSumCount_go l 0 0]
  simp

/-- The §8 scenario series for sensor 3:
`[{value:null}, {value:10.0}, {value:20.0}]`, newest first. -/
def scenarioSeries : List Sample :=
  [{ date := "2025-01-03 12:00:00", value := JSVal.null },
   { date := "2025-01-03 11:00:00", value := JSVal.num 10 },
   { date := "2025-01-03 10:00:00", value := JSVal.num 20 }]

/-- C6: the summarizer's min, max and mean are computed only over valid
(non-null, non-NaN) samples; an all-invalid series yields the "Brak" sentinel
in each of the three independently (never the `±Number.MAX_VALUE` placeholder);
the latest value is the element at index 0, formatted to 2 decimals when valid
and the sentinel when it is null; and on the scenario series
`[null, 10.0, 20.0]` min is "10.00", max is "20.00" and latest is the
sentinel. -/
theorem c6_stats_over_valid_samples (data : List Sample) (hne : data ≠ []) :
    (validValues data = [] →
      minText (some data) = "Minimalna wartość: Brak µg/m³" ∧
      maxText (some data) = "Maksymalna wartość: Brak µg/m³" ∧
      meanText (some data) = "Średnia wartość: Brak µg/m³") ∧
    (∀ vs : List ℚ, validValues data = vs → vs ≠ [] →
      (∀ v ∈ vs, -maxDouble < v ∧ v < maxDouble) →
      (∃ m ∈ vs, (∀ v ∈ vs, m ≤ v) ∧
        minText (some data) = "Minimalna wartość: " ++ jsToFixed m 2 ++ " µg/m³") ∧
      (∃ M ∈ vs, (∀ v ∈ vs, v ≤ M) ∧
        maxText (some data) = "Maksymalna wartość: " ++ jsToFixed M 2 ++ " µg/m³") ∧
      meanText (some data) =
        "Średnia wartość: " ++ jsToFixed (vs.sum / ((vs.length : Nat) : ℚ)) 2 ++
          " µg/m³") ∧
    (∀ d0 rest, data = d0 :: rest →
      (∀ v, d0.value = JSVal.num v →
        latestText (some data) =
          "Aktualny odczyt: " ++ jsToFixed v 2 ++ " µg/m³ (" ++ d0.date ++ ")") ∧
      (d0.value = JSVal.null →
        latestText (some data) =
          "Aktualny odczyt: Brak µg/m³ (" ++ d0.date ++ ")")) ∧
    (minText (some scenarioSeries) = "Minimalna wartość: 10.00 µg/m³" ∧
     maxText (some scenarioSeries) = "Maksymalna wartość: 20.00 µg/m³" ∧
     latestText (some scenarioSeries) =
       "Aktualny odczyt: Brak µg/m³ (2025-01-03 12:00:00)") := by
  obtain ⟨d0, rest, rfl⟩ : ∃ d0 rest, data = d0 :: rest := by
    cases data with
    | nil => exact absurd rfl hne
    | cons a l => exact ⟨a, l, rfl⟩
  refine ⟨?_, ?_, ?_, ?_, ?_, ?_⟩
  · -- all-invalid: each stat yields the sentinel
    intro hv
    refine ⟨?_, ?_, ?_⟩
    · rw [minText_cons, foldMinJS_valid, hv]
      rw [if_neg (fun hc => hc rfl)]
      rfl
    · rw [maxText_cons, foldMaxJS_valid, hv]
      rw [if_neg (fun hc => hc rfl)]
      rfl
    · rw [meanText_cons, foldSumCountJS_valid, hv]
      rw [if_neg (by decide)]
      rfl
  · -- valid values exist: stats are over exactly the valid values
    intro vs hvs hvne hbnd
    obtain ⟨v0, hv0⟩ := List.exists_mem_of_ne_nil vs hvne
    have hminlt : vs.foldl min maxDouble < maxDouble :=
      lt_of_le_of_lt (foldl_min_le_mem vs maxDouble v0 hv0) (hbnd v0 hv0).2
    have hmaxgt : -maxDouble < vs.foldl max (-maxDouble) :=
      lt_of_lt_of_le (hbnd v0 hv0).1 (foldl_max_ge_mem vs (-maxDouble) v0 hv0)
    refine ⟨?_, ?_, ?_⟩
    · have hmem : vs.foldl min maxDouble ∈ vs := by
        rcases foldl_min_eq_init_or_mem vs maxDouble with hc | hc
        · rw [hc] at hminlt
          exact absurd hminlt (lt_irrefl _)
        · exact hc
      refine ⟨vs.foldl min maxDouble, hmem, foldl_min_le_mem vs maxDouble, ?_⟩
      rw [minText_cons, foldMinJS_valid, hvs, if_pos (ne_of_lt hminlt)]
    · have hmem : vs.foldl max (-maxDouble) ∈ vs := by
        rcases foldl_max_eq_init_or_mem vs (-maxDouble) with hc | hc
        · rw [hc] at hmaxgt
          exact absurd hmaxgt (lt_irrefl _)
        · exact hc
      refine ⟨vs.foldl max (-maxDouble), hmem, foldl_max_ge_mem vs (-maxDouble), ?_⟩
      rw [maxText_cons, foldMaxJS_valid, hvs, if_pos (ne_of_gt hmaxgt)]
    · rw [meanText_cons, foldSumCountJS_valid, hvs,
        if_pos (by simpa using List.length_pos.mpr hvne)]
  · -- latest is data[0]
    intro e0 erest heq
    injection heq with h1 h2
    subst h1
    subst h2
    exact ⟨fun v hv => latestText_cons_num d0 rest v hv,
      fun hv => latestText_cons_null d0 rest hv⟩
  · -- scenario: min
    have h10 : (10 : ℚ) < maxDouble := lt_of_le_of_lt (by norm_num) maxDouble_big
    have hmin : foldMinJS scenarioSeries = 10 := by
      simp only [foldMinJS, scenarioSeries, List.foldl_cons, List.foldl_nil]
      rw [min_eq_right (le_of_lt h10)]
      norm_num
    simp only [scenarioSeries] at hmin ⊢
    rw [minText_cons, hmin, if_pos (ne_of_lt h10)]
    rw [jsToFixed_scaled _ _ 1000 (by norm_num) (by norm_num)]
    decide
  · -- scenario: max
    have h20 : -maxDouble < (20 : ℚ) :=
      lt_of_lt_of_le (neg_lt_neg maxDouble_big) (by norm_num)
    have h10 : -maxDouble < (10 : ℚ) :=
      lt_of_lt_of_le (neg_lt_neg maxDouble_big) (by norm_num)
    have hmax : foldMaxJS scenarioSeries = 20 := by
      simp only [foldMaxJS, scenarioSeries, List.foldl_cons, List.foldl_nil]
      rw [max_eq_right (le_of_lt h10)]
      norm_num
    simp only [scenarioSeries] at hmax ⊢
    rw [maxText_cons, hmax, if_pos (ne_of_gt h20)]
    rw [jsToFixed_scaled _ _ 2000 (by norm_num) (by norm_num)]
    decide
  · -- scenario: latest (index 0 is null)
    simp only [scenarioSeries]
    exact latestText_cons_null _ _ rfl

/-- C6 witness: the theorem applied to the §8 scenario series, whose valid
values are `[10, 20]`. -/
theorem c6_stats_over_valid_samples_witness :
    scenarioSeries ≠ [] ∧
    (minText (some scenarioSeries) = "Minimalna wartość: 10.00 µg/m³" ∧
     maxText (some scenarioSeries) = "Maksymalna wartość: 20.00 µg/m³" ∧
     latestText (some scenarioSeries) =
       "Aktualny odczyt: Brak µg/m³ (2025-01-03 12:00:00)") :=
  ⟨by simp [scenarioSeries],
   (c6_stats_over_valid_samples scenarioSeries (by simp [scenarioSeries])).2.2.2⟩

/-- Scenario series A: 3 samples. -/
def seriesA : List Sample :=
  [{ date := "2025-01-02 00:00:00", value := JSVal.num 1 },
   { date := "2025-01-01 23:00:00", value := JSVal.num 2 },
   { date := "2025-01-01 22:00:00", value := JSVal.num 3 }]

/-- Scenario series B: 5 samples. -/
def seriesB : List Sample :=
  [{ date := "2025-01-02 00:00:00", value := JSVal.num 1 },
   { date := "2025-01-01 23:00:00", value := JSVal.num 2 },
   { date := "2025-01-01 22:00:00", value := JSVal.num 3 },
   { date := "2025-01-01 21:00:00", value := JSVal.num 4 },
   { date := "2025-01-01 20:00:00", value := JSVal.num 5 }]

/-- A store holding series A under id 1 and series B under id 2. -/
def demoStore : Nat → Option (List Sample) := fun id =>
  if id = 1 then some seriesA else if id = 2 then some seriesB else none

/-- C5 counterexample: select sensor 2 (series B, 5 samples) FIRST, then
sensor 1 (series A, 3 samples).  `Object.keys` enumerates the integer keys in
ascending numeric order `[1, 2]`, so the canonical time axis is built from
series A — the SECOND-selected series: it has length 3 and is not series B's
5-timestamp sequence, refuting "the axis is the sample timestamps of the
first series in selection order". -/
theorem c5_counterexample :
    objectKeys [2, 1] = [1, 2] ∧
    timePoints (objectKeys [2, 1]) demoStore = seriesA.map (fun s => s.date) ∧
    (timePoints (objectKeys [2, 1]) demoStore).length = 3 ∧
    timePoints (objectKeys [2, 1]) demoStore ≠ seriesB.map (fun s => s.date) ∧
    (timePoints (objectKeys [2, 1]) demoStore).length ≠ seriesB.length :=
  ⟨by decide, by decide, by decide, by decide, by decide⟩

/-- C5 (amended): the paint handler iterates `Object.keys(selectedSensors)`,
which enumerates the selected integer sensor ids in ASCENDING NUMERIC order,
not selection order; the canonical time axis is the sample timestamps of the
first series in that ascending-id enumeration (the lowest selected id), so
its length is that series' sample count; and every selected-and-plotted
series is drawn at its own index positions `i/(n-1)` over its own length `n`,
regardless of any length mismatch with the axis. -/
theorem c5_amended_ascending_axis (sel : List Nat)
    (store : Nat → Option (List Sample)) (id0 : Nat) (rest : List Nat)
    (dataA : List Sample) (w h gmin gmax : ℚ)
    (hids : objectKeys sel = id0 :: rest) (hA : store id0 = some dataA) :
    List.Sorted (fun m n => m ≤ n) (objectKeys sel) ∧
    (∀ n, n ∈ objectKeys sel ↔ n ∈ sel) ∧
    (∀ n ∈ sel, id0 ≤ n) ∧
    timePoints (objectKeys sel) store = dataA.map (fun s => s.date) ∧
    (timePoints (objectKeys sel) store).length = dataA.length ∧
    (∀ id d, id ∈ (objectKeys sel).take 6 → store id = some d →
      plotSeries d w h gmin gmax ∈
        chartSeriesPlots (objectKeys sel) store w h gmin gmax ∧
      (∀ i s v, d.get? i = some s → s.value = JSVal.num v →
        (xPos i d.length w, yPos v gmin gmax h) ∈ seriesPoints d w h gmin gmax)) := by
  have hsorted : List.Sorted (fun m n => m ≤ n) (objectKeys sel) :=
    List.sorted_insertionSort _ sel
  have hmem : ∀ n, n ∈ objectKeys sel ↔ n ∈ sel := fun n =>
    List.mem_insertionSort _
  have hmin : ∀ n ∈ sel, id0 ≤ n := by
    intro n hn
    have hn' : n ∈ objectKeys sel := (hmem n).mpr hn
    rw [hids] at hn' hsorted
    rcases List.mem_cons.mp hn' with h | h
    · exact le_of_eq h.symm
    · exact List.rel_of_sorted_cons hsorted n h
  have haxis : timePoints (objectKeys sel) store = dataA.map (fun s => s.date) := by
    rw [hids]
    simp [timePoints, timePointsGo, hA,
      timePointsGo_ne_zero store rest 1 (by omega)]
  refine ⟨hsorted, hmem, hmin, haxis, by rw [haxis, List.length_map], ?_⟩
  intro id d hmemid hstore
  constructor
  · exact List.mem_filterMap.mpr ⟨id, hmemid, by rw [hstore]; rfl⟩
  · intro i s v hget hv
    have hidx := withIndexFrom_mem_of_get 0 hget
    rw [Nat.zero_add] at hidx
    exact List.mem_filterMap.mpr ⟨(i, s), hidx, by simp [samplePoint, hv]⟩

/-- C5 (amended) witness: selection order [2, 1] enumerates as [1, 2]; the
axis is series A's 3 timestamps (id 1 is the lowest selected id) and series B
is still plotted, with its own 5-sample index spacing. -/
theorem c5_amended_ascending_axis_witness :
    objectKeys [2, 1] = 1 :: [2] ∧
    demoStore 1 = some seriesA ∧
    ((timePoints (objectKeys [2, 1]) demoStore).length = 3 ∧
     (∀ n ∈ ([2, 1] : List Nat), 1 ≤ n) ∧
     plotSeries seriesB 100 100 0 10 ∈
       chartSeriesPlots (objectKeys [2, 1]) demoStore 100 100 0 10) := by
  have T := c5_amended_ascending_axis [2, 1] demoStore 1 [2] seriesA 100 100 0 10
    (by decide) rfl
  exact ⟨by decide, rfl, T.2.2.2.2.1.trans rfl, T.2.2.1,
    (T.2.2.2.2.2 2 seriesB (by decide) rfl).1⟩

/-- C3: for a geocoded coordinate whose normalized city matches no station in
a non-empty catalog (all distances below the `DBL_MAX` sentinel), the search
produces exactly one station; its distance to the query coordinate is ≤ the
distance of every other cataloged station; it is flagged `isSearched = true`;
and the map center is recentered to that station's coordinate. -/
theorem c3_nearest_station_fallback (dist : ℚ × ℚ → ℚ × ℚ → ℚ)
    (r : GeoResult) (rs : List GeoResult) (city : String) (st : AppState)
    (hcat : st.allStations ≠ [])
    (hnomatch : ∀ s ∈ st.allStations,
      normalizeCity s.cityName ≠ normalizeCity city)
    (hbnd : ∀ s ∈ st.allStations,
      dist (r.lat, r.lon) (s.lat, s.lon) < maxDouble) :
    ∃ c ∈ st.allStations.map (fun s => { s with isSearched := false }),
      (onGeocodeReply dist (Reply.ok (r :: rs)) city st).stations =
        [{ c with isSearched := true }] ∧
      (onGeocodeReply dist (Reply.ok (r :: rs)) city st).stations.length = 1 ∧
      (∀ s ∈ st.allStations,
        dist (r.lat, r.lon) (c.lat, c.lon) ≤ dist (r.lat, r.lon) (s.lat, s.lon)) ∧
      (onGeocodeReply dist (Reply.ok (r :: rs)) city st).mapCenter =
        (c.lat, c.lon) ∧
      (onGeocodeReply dist (Reply.ok (r :: rs)) city st).allStations =
        updateStationSearchStatus c.stationId true
          (st.allStations.map (fun s => { s with isSearched := false })) := by
  set cleared := st.allStations.map (fun s => { s with isSearched := false })
    with hcleared
  have hclne : cleared ≠ [] := by
    intro hnil
    exact hcat (List.map_eq_nil_iff.mp hnil)
  have hnomatch' : ∀ s ∈ cleared,
      normalizeCity s.cityName ≠ normalizeCity city := by
    intro s hs
    obtain ⟨s0, hs0, rfl⟩ := List.mem_map.mp hs
    exact hnomatch s0 hs0
  have hbnd' : ∀ s ∈ cleared,
      dist (r.lat, r.lon) (s.lat, s.lon) < maxDouble := by
    intro s hs
    obtain ⟨s0, hs0, rfl⟩ := List.mem_map.mp hs
    exact hbnd s0 hs0
  have happ : applyMatches (normalizeCity city) cleared ([], cleared) =
      ([], cleared) := applyMatches_no_match _ _ hnomatch' _
  obtain ⟨h1, h2, h3⟩ := findClosest_go dist (r.lat, r.lon) cleared (none, maxDouble)
  obtain ⟨s0, hs0⟩ := List.exists_mem_of_ne_nil cleared hclne
  rcases h3 with hacc | ⟨c, hcmem, hc1, hc2⟩
  · exfalso
    have hlt := lt_of_le_of_lt (h2 s0 hs0) (hbnd' s0 hs0)
    rw [hacc] at hlt
    exact lt_irrefl _ hlt
  · have hfc : findClosest dist (r.lat, r.lon) cleared =
        (some c, dist (r.lat, r.lon) (c.lat, c.lon)) := Prod.ext hc1 hc2
    have hred : onGeocodeReply dist (Reply.ok (r :: rs)) city st =
        { st with
          mapCenter := (c.lat, c.lon),
          stations := [{ c with isSearched := true }],
          allStations := updateStationSearchStatus c.stationId true cleared,
          status := "Nie znaleziono stacji w " ++ city ++
            ". Najbliższa stacja znajduje się w " ++ c.cityName ++ "." } := by
      simp only [onGeocodeReply, ← hcleared]
      rw [happ]
      rw [if_pos rfl]
      rw [hfc]
    refine ⟨c, hcmem, ?_, ?_, ?_, ?_, ?_⟩
    · rw [hred]
    · rw [hred]
      rfl
    · intro s hs
      have hmem' : ({ s with isSearched := false } : Station) ∈ cleared :=
        hcleared ▸ List.mem_map_of_mem (fun t => { t with isSearched := false }) hs
      have := h2 _ hmem'
      rw [hc2] at this
      exact this
    · rw [hred]
    · rw [hred]

/-- Squared Euclidean distance on ℚ², a concrete metric used to instantiate
the (metric-agnostic) nearest-station theorem. -/
def distSq : ℚ × ℚ → ℚ × ℚ → ℚ := fun a b =>
  (a.1 - b.1) ^ 2 + (a.2 - b.2) ^ 2

/-- C3 witness: querying "Lodz" at (51.75, 19.45) against the concrete
two-station catalog (Warszawa, Krakow) matches no city exactly and falls back
to the single closest station. -/
theorem c3_nearest_station_fallback_witness :
    demoState.allStations ≠ [] ∧
    (∀ s ∈ demoState.allStations,
      normalizeCity s.cityName ≠ normalizeCity "Lodz") ∧
    (∀ s ∈ demoState.allStations,
      distSq (51.75, 19.45) (s.lat, s.lon) < maxDouble) ∧
    (∃ c ∈ demoState.allStations.map (fun s => { s with isSearched := false }),
      (onGeocodeReply distSq (Reply.ok [{ lat := 51.75, lon := 19.45 }]) "Lodz"
        demoState).stations = [{ c with isSearched := true }] ∧
      (onGeocodeReply distSq (Reply.ok [{ lat := 51.75, lon := 19.45 }]) "Lodz"
        demoState).stations.length = 1 ∧
      (∀ s ∈ demoState.allStations,
        distSq (51.75, 19.45) (c.lat, c.lon) ≤ distSq (51.75, 19.45) (s.lat, s.lon)) ∧
      (onGeocodeReply distSq (Reply.ok [{ lat := 51.75, lon := 19.45 }]) "Lodz"
        demoState).mapCenter = (c.lat, c.lon) ∧
      (onGeocodeReply distSq (Reply.ok [{ lat := 51.75, lon := 19.45 }]) "Lodz"
        demoState).allStations =
        updateStationSearchStatus c.stationId true
          (demoState.allStations.map (fun s => { s with isSearched := false }))) := by
  have hcat : demoState.allStations ≠ [] := by simp [demoState]
  have hnm : ∀ s ∈ demoState.allStations,
      normalizeCity s.cityName ≠ normalizeCity "Lodz" := by decide
  have hbnd : ∀ s ∈ demoState.allStations,
      distSq (51.75, 19.45) (s.lat, s.lon) < maxDouble := by
    intro s hs
    fin_cases hs <;>
      exact lt_trans (by norm_num [distSq, demoState]) maxDouble_big
  exact ⟨hcat, hnm, hbnd,
    c3_nearest_station_fallback distSq { lat := 51.75, lon := 19.45 } [] "Lodz"
      demoState hcat hnm hbnd⟩

end AirApi
